import Mathlib

/-!
Shallow embedding of the backend.ai accelerator plugins
(`src/ai/backend/accelerator/tpu/tpu.py` and
`src/ai/backend/accelerator/cuda/plugin.py`).

Modelling conventions:
* Numbers are carried as exact rationals (`ℚ`), but the lossy numeric steps
  of the source are modelled explicitly: Python `/` (true division, IEEE-754
  binary64) is `pyFloatDiv`, the exact quotient rounded half-even to 53
  significant bits, and `int * Decimal` under Python's default 28-digit
  context is `decCtxMul`, the exact product rounded half-even to 28
  significant decimal digits.
* Python `int(x)` (truncation toward zero) is `truncToInt`.
* `Decimal.quantize(Decimal('.01'), ROUND_DOWN)` (round toward zero) and
  `ROUND_UP` (round away from zero) are `quantizeRoundDown` / `quantizeRoundUp`.
* Python dicts are modelled as association lists (with the unique-key
  invariant of a dict) or as `String → Option ℚ` maps.
-/

namespace TPU

/-- `TPUAcceleratorInfo.unit_memory`: bytes per one full share (2 GiB). -/
def unit_memory : ℕ := 2 * 2 ^ 30

/-- `TPUAcceleratorInfo.unit_proc`: processing units per one full share. -/
def unit_proc : ℕ := 1

/-- Python `int()` applied to a rational: truncation toward zero. -/
def truncToInt (x : ℚ) : ℤ :=
  if 0 ≤ x then ⌊x⌋ else ⌈x⌉

/-- `Decimal(x).quantize(Decimal('.01'), ROUND_DOWN)`: quantize to the 0.01
step rounding toward zero. -/
def quantizeRoundDown (x : ℚ) : ℚ :=
  if 0 ≤ x then (⌊x * 100⌋ : ℚ) / 100 else (⌈x * 100⌉ : ℚ) / 100

/-- `Decimal(x).quantize(Decimal('.01'), ROUND_UP)`: quantize to the 0.01
step rounding away from zero. -/
def quantizeRoundUp (x : ℚ) : ℚ :=
  if 0 ≤ x then (⌈x * 100⌉ : ℚ) / 100 else (⌊x * 100⌋ : ℚ) / 100

/-- Fuel-bounded base logarithm on naturals: with `fuel ≥ n` it returns the
greatest `L` with `base ^ L ≤ n` (for `n ≥ 1`, `base ≥ 2`); structural
recursion on the fuel so the kernel can evaluate it. -/
def natLogBAux (base : ℕ) : ℕ → ℕ → ℕ
  | 0, _ => 0
  | fuel + 1, n => if n < base then 0 else natLogBAux base fuel (n / base) + 1

/-- `natLogB base n`: greatest `L` with `base ^ L ≤ n` (for `n ≥ 1`,
`base ≥ 2`); the fuel `n` always suffices. -/
def natLogB (base n : ℕ) : ℕ := natLogBAux base n n

/-- Greatest `e : ℤ` with `base ^ e ≤ x`, for a positive rational `x` and
`base ≥ 2`. -/
def ilogB (base : ℕ) (x : ℚ) : ℤ :=
  if 1 ≤ x then (natLogB base (⌊x⌋).toNat : ℤ)
  else if x * (base : ℚ) ^ natLogB base (⌊1 / x⌋).toNat = 1 then
    -(natLogB base (⌊1 / x⌋).toNat : ℤ)
  else -(natLogB base (⌊1 / x⌋).toNat : ℤ) - 1

/-- Round a rational to the nearest integer, ties to even (the rounding step
shared by IEEE-754 binary64 operations and Python's default `Decimal`
context). -/
def rnearInt (q : ℚ) : ℤ :=
  if q - (⌊q⌋ : ℚ) < 1 / 2 then ⌊q⌋
  else if 1 / 2 < q - (⌊q⌋ : ℚ) then ⌊q⌋ + 1
  else if ⌊q⌋ % 2 = 0 then ⌊q⌋ else ⌊q⌋ + 1

/-- Round a positive rational to `prec` significant base-`base` digits,
half-even. -/
def roundSigPos (base prec : ℕ) (x : ℚ) : ℚ :=
  (rnearInt (x / (base : ℚ) ^ (ilogB base x - ((prec - 1 : ℕ) : ℤ))) : ℚ) *
    (base : ℚ) ^ (ilogB base x - ((prec - 1 : ℕ) : ℤ))

/-- Round a rational to `prec` significant base-`base` digits, half-even
(sign-symmetric, zero fixed). -/
def roundSig (base prec : ℕ) (x : ℚ) : ℚ :=
  if x = 0 then 0
  else if 0 < x then roundSigPos base prec x
  else -roundSigPos base prec (-x)

/-- Python `/` (true division) on exact operand values: the exact quotient
correctly rounded to IEEE-754 binary64, i.e. to 53 significant bits,
half-even. Faithful on the normal finite range of binary64 (no overflow or
subnormals), which covers every quotient these functions meet. -/
def pyFloatDiv (a b : ℚ) : ℚ := roundSig 2 53 (a / b)

/-- Python `Decimal` multiplication under the default context (28 significant
decimal digits, `ROUND_HALF_EVEN`), as performed by `unit * share` in
`share_to_spec`: the exact product rounded to 28 significant decimal
digits. -/
def decCtxMul (a b : ℚ) : ℚ := roundSig 10 28 (a * b)

/-- `TPUAcceleratorInfo.max_share`: the minimum of the memory share and the
processing share — both computed by Python float division — quantized to the
0.01 step with `ROUND_DOWN` (the `Decimal(float)` conversion is exact;
quantize is faithful while the result fits the 28-digit context, which holds
for every value considered here). -/
def max_share (memory_size processing_units : ℚ) : ℚ :=
  quantizeRoundDown
    (min (pyFloatDiv memory_size (unit_memory : ℚ))
         (pyFloatDiv processing_units (unit_proc : ℚ)))

/-- `TPUAcceleratorInfo.share_to_spec`: concrete memory / processing amounts
for a share, computed by `Decimal` context multiplication and truncated to
integers by Python `int()`. -/
def share_to_spec (share : ℚ) : ℤ × ℤ :=
  (truncToInt (decCtxMul (unit_memory : ℚ) share),
   truncToInt (decCtxMul (unit_proc : ℚ) share))

/-- `TPUAcceleratorInfo.spec_to_share`: the larger of the two implied shares
— both computed by Python float division — quantized to the 0.01 step with
`ROUND_UP`. -/
def spec_to_share (requested_memory requested_proc_units : ℤ) : ℚ :=
  quantizeRoundUp
    (max (pyFloatDiv (requested_memory : ℚ) (unit_memory : ℚ))
         (pyFloatDiv (requested_proc_units : ℚ) (unit_proc : ℚ)))

end TPU

section TPUTheorems

open TPU

lemma ilogB_of_one_le (base : ℕ) (x : ℚ) (hx : 1 ≤ x) :
    ilogB base x = (natLogB base (⌊x⌋).toNat : ℤ) := if_pos hx

lemma rnearInt_of_fract_lt (q : ℚ) (f : ℤ) (hf : ⌊q⌋ = f)
    (h : q - (f : ℚ) < 1 / 2) : rnearInt q = f := by
  simp only [rnearInt, hf]
  rw [if_pos h]

lemma rnearInt_of_half_odd (q : ℚ) (f : ℤ) (hf : ⌊q⌋ = f)
    (h : q - (f : ℚ) = 1 / 2) (ho : ¬ f % 2 = 0) : rnearInt q = f + 1 := by
  simp only [rnearInt, hf]
  rw [if_neg (by rw [h]; norm_num), if_neg (by rw [h]; norm_num), if_neg ho]

/-- Evaluation scheme for `roundSig` at an input `≥ 1`: supply the integer
logarithm, the resulting exponent and the rounded significand. -/
lemma roundSig_eval (base prec : ℕ) (x : ℚ) (L : ℕ) (e : ℤ) (n : ℤ)
    (hx : 1 ≤ x)
    (hL : natLogB base (⌊x⌋).toNat = L)
    (he : (L : ℤ) - ((prec - 1 : ℕ) : ℤ) = e)
    (hn : rnearInt (x / (base : ℚ) ^ e) = n) :
    roundSig base prec x = (n : ℚ) * (base : ℚ) ^ e := by
  have hx0 : (0 : ℚ) < x := lt_of_lt_of_le one_pos hx
  simp only [roundSig, roundSigPos]
  rw [if_neg (ne_of_gt hx0), if_pos hx0, ilogB_of_one_le base x hx, hL, he, hn]

lemma decCtxMul_mem_at_big :
    decCtxMul (unit_memory : ℚ) ((1152921504606846850 : ℚ) / 100) =
      24758800785707602792153088 := by
  have hprod : ((unit_memory : ℕ) : ℚ) * ((1152921504606846850 : ℚ) / 100) =
      24758800785707602792153088 := by
    norm_num [unit_memory]
  simp only [decCtxMul]
  rw [hprod]
  rw [roundSig_eval 10 28 _ 25 (-2) 2475880078570760279215308800
      (by norm_num)
      (by rw [show ⌊(24758800785707602792153088 : ℚ)⌋ = 24758800785707602792153088 from
            by norm_num]
          decide)
      (by norm_num)
      (by rw [show (24758800785707602792153088 : ℚ) / ((10 : ℕ) : ℚ) ^ (-2 : ℤ) =
            (2475880078570760279215308800 : ℚ) from by norm_num]
          exact rnearInt_of_fract_lt _ 2475880078570760279215308800 (by norm_num)
            (by push_cast; norm_num))]
  push_cast
  norm_num

lemma decCtxMul_proc_at_big :
    decCtxMul (unit_proc : ℚ) ((1152921504606846850 : ℚ) / 100) =
      (23058430092136937 : ℚ) / 2 := by
  have hprod : ((unit_proc : ℕ) : ℚ) * ((1152921504606846850 : ℚ) / 100) =
      (23058430092136937 : ℚ) / 2 := by
    norm_num [unit_proc]
  simp only [decCtxMul]
  rw [hprod]
  rw [roundSig_eval 10 28 _ 16 (-11) 1152921504606846850000000000
      (by norm_num)
      (by rw [show ⌊(23058430092136937 : ℚ) / 2⌋ = 11529215046068468 from by norm_num]
          decide)
      (by norm_num)
      (by rw [show ((23058430092136937 : ℚ) / 2) / ((10 : ℕ) : ℚ) ^ (-11 : ℤ) =
            (1152921504606846850000000000 : ℚ) from by norm_num]
          exact rnearInt_of_fract_lt _ 1152921504606846850000000000 (by norm_num)
            (by push_cast; norm_num))]
  push_cast
  norm_num

lemma share_to_spec_at_big :
    share_to_spec ((1152921504606846850 : ℚ) / 100) =
      (24758800785707602792153088, 11529215046068468) := by
  simp only [share_to_spec, decCtxMul_mem_at_big, decCtxMul_proc_at_big, truncToInt]
  rw [if_pos (by norm_num : (0 : ℚ) ≤ 24758800785707602792153088),
      if_pos (by norm_num : (0 : ℚ) ≤ (23058430092136937 : ℚ) / 2)]
  rw [show ⌊(24758800785707602792153088 : ℚ)⌋ = 24758800785707602792153088 from by norm_num,
      show ⌊(23058430092136937 : ℚ) / 2⌋ = 11529215046068468 from by norm_num]

lemma pyFloatDiv_mem_at_big :
    pyFloatDiv ((24758800785707602792153088 : ℤ) : ℚ) (unit_memory : ℚ) =
      11529215046068468 := by
  have hq : ((24758800785707602792153088 : ℤ) : ℚ) / ((unit_memory : ℕ) : ℚ) =
      (23058430092136937 : ℚ) / 2 := by
    push_cast
    norm_num [unit_memory]
  simp only [pyFloatDiv]
  rw [hq]
  rw [roundSig_eval 2 53 _ 53 1 5764607523034234
      (by norm_num)
      (by rw [show ⌊(23058430092136937 : ℚ) / 2⌋ = 11529215046068468 from by norm_num]
          decide)
      (by norm_num)
      (by rw [show ((23058430092136937 : ℚ) / 2) / ((2 : ℕ) : ℚ) ^ (1 : ℤ) =
            (23058430092136937 : ℚ) / 4 from by norm_num]
          exact rnearInt_of_fract_lt _ 5764607523034234 (by norm_num)
            (by push_cast; norm_num))]
  push_cast
  norm_num

lemma pyFloatDiv_proc_at_big :
    pyFloatDiv ((11529215046068468 : ℤ) : ℚ) (unit_proc : ℚ) =
      11529215046068468 := by
  have hq : ((11529215046068468 : ℤ) : ℚ) / ((unit_proc : ℕ) : ℚ) =
      (11529215046068468 : ℚ) := by
    push_cast
    norm_num [unit_proc]
  simp only [pyFloatDiv]
  rw [hq]
  rw [roundSig_eval 2 53 _ 53 1 5764607523034234
      (by norm_num)
      (by rw [show ⌊(11529215046068468 : ℚ)⌋ = 11529215046068468 from by norm_num]
          decide)
      (by norm_num)
      (by rw [show (11529215046068468 : ℚ) / ((2 : ℕ) : ℚ) ^ (1 : ℤ) =
            (5764607523034234 : ℚ) from by norm_num]
          exact rnearInt_of_fract_lt _ 5764607523034234 (by norm_num)
            (by push_cast; norm_num))]
  push_cast
  norm_num

lemma spec_to_share_at_big :
    spec_to_share 24758800785707602792153088 11529215046068468 =
      (1152921504606846800 : ℚ) / 100 := by
  simp only [spec_to_share, pyFloatDiv_mem_at_big, pyFloatDiv_proc_at_big]
  rw [max_self]
  simp only [quantizeRoundUp]
  rw [if_pos (by norm_num : (0 : ℚ) ≤ 11529215046068468)]
  rw [show ⌈(11529215046068468 : ℚ) * 100⌉ = 1152921504606846800 from by norm_num]
  push_cast
  ring

/-- C1: the claimed round-trip bound `spec_to_share (share_to_spec s) ≥ s`
fails in the program at the valid share s = 11529215046068468.50: the float
division inside `spec_to_share` rounds the memory ratio (whose exact value
is s, an odd multiple of 1/2 needing 55 significant bits) down to the even
neighbour, and the round trip returns 11529215046068468.00 < s. This theorem
evaluates the embedded code at that failing input. -/
theorem spec_to_share_share_to_spec_understates_at_big_share :
    spec_to_share (share_to_spec ((1152921504606846850 : ℚ) / 100)).1
        (share_to_spec ((1152921504606846850 : ℚ) / 100)).2 =
      (1152921504606846800 : ℚ) / 100 ∧
    spec_to_share (share_to_spec ((1152921504606846850 : ℚ) / 100)).1
        (share_to_spec ((1152921504606846850 : ℚ) / 100)).2 <
      (1152921504606846850 : ℚ) / 100 := by
  have h : spec_to_share (share_to_spec ((1152921504606846850 : ℚ) / 100)).1
      (share_to_spec ((1152921504606846850 : ℚ) / 100)).2 =
      (1152921504606846800 : ℚ) / 100 := by
    rw [share_to_spec_at_big]
    exact spec_to_share_at_big
  exact ⟨h, by rw [h]; norm_num⟩

lemma pyFloatDiv_mem_pow85 :
    pyFloatDiv (2 ^ 85 : ℚ) (unit_memory : ℚ) = 18014398509481984 := by
  have hq : (2 ^ 85 : ℚ) / ((unit_memory : ℕ) : ℚ) = (18014398509481984 : ℚ) := by
    norm_num [unit_memory]
  simp only [pyFloatDiv]
  rw [hq]
  rw [roundSig_eval 2 53 _ 54 2 4503599627370496
      (by norm_num)
      (by rw [show ⌊(18014398509481984 : ℚ)⌋ = 18014398509481984 from by norm_num]
          decide)
      (by norm_num)
      (by rw [show (18014398509481984 : ℚ) / ((2 : ℕ) : ℚ) ^ (2 : ℤ) =
            (4503599627370496 : ℚ) from by norm_num]
          exact rnearInt_of_fract_lt _ 4503599627370496 (by norm_num)
            (by push_cast; norm_num))]
  push_cast
  norm_num

lemma pyFloatDiv_proc_at_tie :
    pyFloatDiv (2 ^ 53 + 3 : ℚ) (unit_proc : ℚ) = 9007199254740996 := by
  have hq : (2 ^ 53 + 3 : ℚ) / ((unit_proc : ℕ) : ℚ) = (9007199254740995 : ℚ) := by
    norm_num [unit_proc]
  simp only [pyFloatDiv]
  rw [hq]
  rw [roundSig_eval 2 53 _ 53 1 4503599627370498
      (by norm_num)
      (by rw [show ⌊(9007199254740995 : ℚ)⌋ = 9007199254740995 from by norm_num]
          decide)
      (by norm_num)
      (by rw [show (9007199254740995 : ℚ) / ((2 : ℕ) : ℚ) ^ (1 : ℤ) =
            (9007199254740995 : ℚ) / 2 from by norm_num]
          exact rnearInt_of_half_odd _ 4503599627370497
            (by norm_num)
            (by push_cast; norm_num)
            (by decide))]
  push_cast
  norm_num

/-- C7: the claimed bound "max_share never exceeds the exact minimum ratio"
fails in the program at memory_size = 2^85 bytes, processing_units = 2^53+3:
converting 2^53+3 to a float lands exactly half-way between representable
neighbours and ties-to-even rounds it up, so max_share returns
9007199254740996.00 while the exact minimum ratio is 9007199254740995. This
theorem evaluates the embedded code at that failing input. -/
theorem max_share_overstates_at_float_tie :
    max_share (2 ^ 85 : ℚ) (2 ^ 53 + 3 : ℚ) = 9007199254740996 ∧
    min ((2 ^ 85 : ℚ) / (unit_memory : ℚ)) ((2 ^ 53 + 3 : ℚ) / (unit_proc : ℚ)) =
      9007199254740995 ∧
    min ((2 ^ 85 : ℚ) / (unit_memory : ℚ)) ((2 ^ 53 + 3 : ℚ) / (unit_proc : ℚ)) <
      max_share (2 ^ 85 : ℚ) (2 ^ 53 + 3 : ℚ) := by
  have hms : max_share (2 ^ 85 : ℚ) (2 ^ 53 + 3 : ℚ) = 9007199254740996 := by
    simp only [max_share, pyFloatDiv_mem_pow85, pyFloatDiv_proc_at_tie]
    rw [min_eq_right (by norm_num : (9007199254740996 : ℚ) ≤ 18014398509481984)]
    simp only [quantizeRoundDown]
    rw [if_pos (by norm_num : (0 : ℚ) ≤ 9007199254740996)]
    rw [show ⌊(9007199254740996 : ℚ) * 100⌋ = 900719925474099600 from by norm_num]
    norm_num
  have hmin : min ((2 ^ 85 : ℚ) / (unit_memory : ℚ))
      ((2 ^ 53 + 3 : ℚ) / (unit_proc : ℚ)) = 9007199254740995 := by
    rw [show (2 ^ 85 : ℚ) / ((unit_memory : ℕ) : ℚ) = (18014398509481984 : ℚ) from
          by norm_num [unit_memory],
        show (2 ^ 53 + 3 : ℚ) / ((unit_proc : ℕ) : ℚ) = (9007199254740995 : ℚ) from
          by norm_num [unit_proc]]
    rw [min_eq_right (by norm_num : (9007199254740995 : ℚ) ≤ 18014398509481984)]
  exact ⟨hms, hmin, by rw [hms, hmin]; norm_num⟩

end TPUTheorems

namespace CUDA

/-- The raw property record returned by `libcudart.get_device_props`, together
with the results of the two fallible probes done per device in
`CUDAPlugin.list_devices`: the sysfs NUMA-node read (`none` models the
`OSError` branch) and the vendor UUID (`none` models a missing `uuid` key; a
present value is modelled as the already-formatted UUID string). -/
structure RawDeviceInfo where
  pciBusID_str : String
  totalGlobalMem : ℕ
  multiProcessorCount : ℕ
  name : String
  uuidStr : Option String
  numaNodeRead : Option ℤ
deriving DecidableEq, Repr

/-- `CUDADevice`: the device descriptor record built by `list_devices`. -/
structure CUDADevice where
  device_id : String
  hw_location : String
  numa_node : Option ℤ
  memory_size : ℕ
  processing_units : ℕ
  model_name : String
  uuid : String
deriving DecidableEq, Repr

/-- The all-zero UUID substituted when the vendor UUID is unavailable. -/
def nilUuid : String := "00000000-0000-0000-0000-000000000000"

/-- Body of the per-device loop of `CUDAPlugin.list_devices`. -/
def buildDevice (idx : ℕ) (raw : RawDeviceInfo) : CUDADevice :=
  { device_id := toString idx
    hw_location := raw.pciBusID_str
    numa_node := raw.numaNodeRead
    memory_size := raw.totalGlobalMem
    processing_units := raw.multiProcessorCount
    model_name := raw.name
    uuid := raw.uuidStr.getD nilUuid }

/-- `CUDAPlugin.list_devices`: `[]` when the plugin is disabled; otherwise
iterate device indices `0 .. num_devices - 1` (the `libcudart.get_device_count`
result), skip ids in `device_mask` (`continue`), and build a descriptor from
each remaining device's raw properties. -/
def list_devices (enabled : Bool) (device_mask : List String) (num_devices : ℕ)
    (props : ℕ → RawDeviceInfo) : List CUDADevice :=
  if !enabled then []
  else
    ((List.range num_devices).filter
        (fun idx => !(device_mask.contains (toString idx)))).map
      (fun idx => buildDevice idx (props idx))

/-- `CUDAPlugin.available_slots`: a single `cuda.device` slot counting the
listed devices. -/
def available_slots (enabled : Bool) (device_mask : List String) (num_devices : ℕ)
    (props : ℕ → RawDeviceInfo) : List (String × ℚ) :=
  [("cuda.device",
    ((list_devices enabled device_mask num_devices props).length : ℚ))]

/-- One allocation map in `generate_docker_args` /
`generate_resource_data`: slot name paired with per-device decimal amounts
(keys unique, as in a Python dict). -/
def DeviceAlloc : Type := List (String × List (String × ℚ))

/-- Inner step of the active-id accumulation: add the device id to the
accumulator when its allocated amount is positive (Python `set.add`: no
duplicate insertion). -/
def addActiveDev (acc : List String) (e : String × ℚ) : List String :=
  if 0 < e.2 then (if e.1 ∈ acc then acc else acc ++ [e.1]) else acc

/-- Per-slot step of the active-id accumulation. -/
def addActiveSlot (acc : List String) (s : String × List (String × ℚ)) : List String :=
  s.2.foldl addActiveDev acc

/-- The `active_device_ids` set computed at the top of `generate_docker_args`:
ids with a positive allocated amount in any slot, without duplicates. -/
def activeDeviceIds (device_alloc : DeviceAlloc) : List String :=
  device_alloc.foldl addActiveSlot []

/-- Strip a leading pattern from a character list: `some rest` when the list
starts with the pattern, else `none`. -/
def stripPat : List Char → List Char → Option (List Char)
  | [], rest => some rest
  | _ :: _, [] => none
  | p :: ps, c :: cs => if c = p then stripPat ps cs else none

/-- The regex match `re.search(r'^/dev/nvidia(\d+)$', dev)` (anchored at both
ends): `some digits` when `dev` is `/dev/nvidia` followed by one or more
digits, else `none`; computed on the character list of the string. -/
def nvidiaDevIndex (dev : String) : Option String :=
  match stripPat "/dev/nvidia".data dev.data with
  | none => none
  | some rest =>
    if rest ≠ [] ∧ rest.all Char.isDigit then some (String.mk rest) else none

/-- The V1 device-file filter loop: files with no device-index suffix are
always kept; files `/dev/nvidia<N>` are kept only when `<N>` is an active
device id. -/
def v1FilterDevices (devices : List String) (active : List String) : List String :=
  devices.filter (fun dev =>
    match nvidiaDevIndex dev with
    | none => true
    | some idx => active.contains idx)

/-- One entry of the V1 `Devices` host-config list. -/
structure DeviceEntry where
  PathOnHost : String
  PathInContainer : String
  CgroupPermissions : String
deriving DecidableEq, Repr

/-- The JSON document returned by the V1 volume-plugin HTTP endpoint
(`GET /docker/cli/json`). -/
structure NvidiaParams where
  Volumes : List String
  VolumeDriver : String
  Devices : List String
deriving DecidableEq, Repr

/-- The container-creation parameters produced by `generate_docker_args`,
flattened into one record: the V1 branch fills `binds` and `devices`, the V2
branch fills `runtime` and `env`, the disabled branch returns the empty
record (Python `{}`). -/
structure DockerArgs where
  binds : List String
  devices : List DeviceEntry
  runtime : Option String
  env : List String
deriving DecidableEq, Repr

/-- Python `sorted` on the active-id set: lexicographic string order (code
points), modelled by insertion sort under `≤`. -/
def sortedActiveDeviceIds (device_alloc : DeviceAlloc) : List String :=
  List.insertionSort (· ≤ ·) (activeDeviceIds device_alloc)

/-- `CUDAPlugin.generate_docker_args`. The V1 HTTP response is passed in as
`nvidia_params` (the embedding models the successful-fetch path; an HTTP
failure raises before any output is produced). `binds` recombines the
colon-split components of each well-formed `Volumes` entry, which
reconstructs the entries themselves (Python iterates the set of volume
names; the multiset of bind strings is the same, order abstracted). The
unknown-major branch raises `RuntimeError`, modelled as `none`. -/
def generate_docker_args (enabled : Bool) (nvdocker_version : ℕ × ℕ × ℕ)
    (nvidia_params : NvidiaParams) (device_alloc : DeviceAlloc) :
    Option DockerArgs :=
  if !enabled then some { binds := [], devices := [], runtime := none, env := [] }
  else
    let active := activeDeviceIds device_alloc
    if nvdocker_version.1 = 1 then
      let devs := v1FilterDevices nvidia_params.Devices active
      some { binds := nvidia_params.Volumes
             devices := devs.map (fun d =>
               { PathOnHost := d, PathInContainer := d, CgroupPermissions := "mrw" })
             runtime := none
             env := [] }
    else if nvdocker_version.1 = 2 then
      let device_list_str := String.intercalate "," (sortedActiveDeviceIds device_alloc)
      some { binds := []
             devices := []
             runtime := some "nvidia"
             env := ["NVIDIA_VISIBLE_DEVICES=" ++ device_list_str] }
    else none

end CUDA

namespace CUDA

/-- The per-device statistics record returned by `libnvml.get_device_stats`. -/
structure DevStat where
  mem_total : ℕ
  mem_used : ℕ
  gpu_util : ℕ
deriving DecidableEq, Repr

/-- The NVML statistics driver as seen by `gather_node_measures`: each call
either returns a value or raises (`ImportError` / `LibraryError`, both
collapsed into the single `.error` case since the handler bodies only log). -/
structure NvmlDriver where
  get_device_count : Except Unit ℕ
  get_device_stats : ℕ → Except Unit DevStat

/-- A `(current, capacity)` measurement pair. -/
structure Measurement where
  current : ℚ
  capacity : ℚ
deriving DecidableEq, Repr

/-- A per-node measurement record with its per-device breakdown. -/
structure NodeMeasurement where
  metric_key : String
  unit_hint : String
  stats_filter : List String
  per_node : Measurement
  per_device : List (String × Measurement)
deriving DecidableEq, Repr

/-- The mutable accumulators of `gather_node_measures`, initialised before
the `try` block. -/
structure GatherState where
  dev_count : ℕ
  mem_avail_total : ℕ
  mem_used_total : ℕ
  mem_stats : List (String × Measurement)
  util_total : ℕ
  util_stats : List (String × Measurement)
deriving DecidableEq, Repr

/-- All accumulators zero / empty. -/
def initGatherState : GatherState :=
  { dev_count := 0, mem_avail_total := 0, mem_used_total := 0, mem_stats := [],
    util_total := 0, util_stats := [] }

/-- The per-device loop inside the `try` block: masked ids are skipped
(`continue`); a raising `get_device_stats` call aborts the loop, keeping the
state accumulated so far (the `except` handlers only log). -/
def gatherLoop (driver : NvmlDriver) (device_mask : List String) :
    List ℕ → GatherState → GatherState
  | [], st => st
  | idx :: rest, st =>
    if device_mask.contains (toString idx) then gatherLoop driver device_mask rest st
    else
      match driver.get_device_stats idx with
      | .error _ => st
      | .ok ds =>
        gatherLoop driver device_mask rest
          { st with
            mem_avail_total := st.mem_avail_total + ds.mem_total
            mem_used_total := st.mem_used_total + ds.mem_used
            mem_stats := st.mem_stats ++
              [(toString idx, ⟨(ds.mem_used : ℚ), (ds.mem_total : ℚ)⟩)]
            util_total := st.util_total + ds.gpu_util
            util_stats := st.util_stats ++
              [(toString idx, ⟨(ds.gpu_util : ℚ), (100 : ℚ)⟩)] }

/-- The state after running the `try` block of `gather_node_measures`: when
disabled nothing runs; a raising `get_device_count` leaves every accumulator
at its initial value. -/
def gatherState (enabled : Bool) (device_mask : List String)
    (driver : NvmlDriver) : GatherState :=
  if !enabled then initGatherState
  else
    match driver.get_device_count with
    | .error _ => initGatherState
    | .ok n => gatherLoop driver device_mask (List.range n)
        { initGatherState with dev_count := n }

/-- `CUDAPlugin.gather_node_measures`: always returns the two records
(`cuda_mem`, `cuda_util`) built from whatever the `try` block accumulated. -/
def gather_node_measures (enabled : Bool) (device_mask : List String)
    (driver : NvmlDriver) : List NodeMeasurement :=
  let st := gatherState enabled device_mask driver
  [ { metric_key := "cuda_mem"
      unit_hint := "bytes"
      stats_filter := ["max"]
      per_node := ⟨(st.mem_used_total : ℚ), (st.mem_avail_total : ℚ)⟩
      per_device := st.mem_stats },
    { metric_key := "cuda_util"
      unit_hint := "percent"
      stats_filter := ["avg", "max"]
      per_node := ⟨(st.util_total : ℚ), ((st.dev_count * 100 : ℕ) : ℚ)⟩
      per_device := st.util_stats } ]

/-- The allocation ledger: slot name → device id → allocated amount.
(`DiscretePropertyAllocMap.allocations` maps each slot to a per-device dict;
absent devices are `none`.) -/
def Ledger : Type := String → String → Option ℚ

/-- Python `dict.update(entries)` on a `String → Option ℚ` map, with
`entries` the items of a dict (unique keys): every key present in `entries`
is overwritten, every other key is unchanged. -/
def dictUpdate (m : String → Option ℚ) (entries : List (String × ℚ)) :
    String → Option ℚ :=
  fun k =>
    match entries.lookup k with
    | some v => some v
    | none => m k

/-- The external `ResourceSpec` read back from a running container:
device-family name → slot name → per-device amounts (a missing key is the
empty dict `[]`, matching the `.get(…, {})` chain in
`restore_from_container`). -/
structure ResourceSpec where
  allocations : String → String → List (String × ℚ)

/-- Modelled from the spec: `AbstractAllocMap.apply_allocation` lives in the
external `ai.backend.agent.resources` package, not in this repository; per
the spec, restoration merges the per-device amounts into the ledger
identically to `apply` except that it must not fail on values already
present (idempotent under repeated restoration of the same spec), i.e. an
overwriting merge at the given slot. -/
def apply_allocation (ledger : Ledger) (slot : String)
    (entries : List (String × ℚ)) : Ledger :=
  fun s => if s = slot then dictUpdate (ledger s) entries else ledger s

/-- The legacy branch of `restore_from_container`:
`alloc_map.allocations[SlotName('cuda.device')].update(...)`, a plain dict
update of the `cuda.device` sub-map. -/
def legacyUpdate (ledger : Ledger) (entries : List (String × ℚ)) : Ledger :=
  fun s => if s = "cuda.device" then dictUpdate (ledger s) entries else ledger s

/-- `CUDAPlugin.restore_from_container`: a no-op when disabled or when the
container carries no resource spec; otherwise the `cuda` / `cuda.device`
allocation read from the spec is merged into the ledger, through
`apply_allocation` when the alloc map has it (`hasApplyAllocation`), else
through the legacy direct dict update. -/
def restore_from_container (enabled : Bool) (resource_spec : Option ResourceSpec)
    (hasApplyAllocation : Bool) (ledger : Ledger) : Ledger :=
  if !enabled then ledger
  else
    match resource_spec with
    | none => ledger
    | some rs =>
      let entries := rs.allocations "cuda" "cuda.device"
      if hasApplyAllocation then apply_allocation ledger "cuda.device" entries
      else legacyUpdate ledger entries

end CUDA

namespace CUDA

lemma addActiveDev_nodup (acc : List String) (e : String × ℚ) (h : acc.Nodup) :
    (addActiveDev acc e).Nodup := by
  unfold addActiveDev
  split
  · split
    · exact h
    · rename_i hmem
      simp [List.nodup_append, h, hmem]
  · exact h

lemma foldl_addActiveDev_nodup (l : List (String × ℚ)) :
    ∀ acc : List String, acc.Nodup → (l.foldl addActiveDev acc).Nodup := by
  induction l with
  | nil => intro acc h; exact h
  | cons e t ih =>
    intro acc h
    exact ih (addActiveDev acc e) (addActiveDev_nodup acc e h)

lemma foldl_addActiveSlot_nodup (al : List (String × List (String × ℚ))) :
    ∀ acc : List String, acc.Nodup → (al.foldl addActiveSlot acc).Nodup := by
  induction al with
  | nil => intro acc h; exact h
  | cons s t ih =>
    intro acc h
    exact ih (addActiveSlot acc s) (foldl_addActiveDev_nodup s.2 acc h)

/-- The active-id list computed by `generate_docker_args` has no duplicates
(it models a Python `set`). -/
lemma activeDeviceIds_nodup (device_alloc : DeviceAlloc) :
    (activeDeviceIds device_alloc).Nodup :=
  foldl_addActiveSlot_nodup device_alloc [] List.nodup_nil

/-- In a strictly sorted list, a smaller member is listed before a larger
one. -/
lemma indexOf_lt_of_pairwise_lt {l : List String} (h : l.Pairwise (· < ·))
    {a b : String} (ha : a ∈ l) (hb : b ∈ l) (hab : a < b) :
    l.indexOf a < l.indexOf b := by
  induction l with
  | nil => simp at ha
  | cons c t ih =>
    rw [List.pairwise_cons] at h
    by_cases hca : c = a
    · subst hca
      have hbt : b ∈ t := by
        rcases List.mem_cons.1 hb with rfl | h'
        · exact absurd hab (lt_irrefl _)
        · exact h'
      rw [List.indexOf_cons_self, List.indexOf_cons_ne _ (ne_of_gt hab).symm]
      exact Nat.succ_pos _
    · have hat : a ∈ t := by
        rcases List.mem_cons.1 ha with rfl | h'
        · exact absurd rfl hca
        · exact h'
      have hbt : b ∈ t := by
        rcases List.mem_cons.1 hb with rfl | h'
        · exact absurd (h.1 a hat) (not_lt_of_gt hab)
        · exact h'
      have hcb : c ≠ b := by
        intro hc
        subst hc
        exact absurd (h.1 a hat) (not_lt_of_gt hab)
      rw [List.indexOf_cons_ne _ hca, List.indexOf_cons_ne _ hcb]
      exact Nat.succ_lt_succ (ih h.2 hat hbt)

end CUDA

/-- C6: a device id in the configured device mask never appears in the device
listing, and (when enabled) `available_slots` reports a `cuda.device`
capacity counting exactly the unmasked device indices. -/
theorem masked_device_excluded_and_slots_count_unmasked (enabled : Bool)
    (device_mask : List String) (num_devices : ℕ) (props : ℕ → CUDA.RawDeviceInfo)
    (d : String) (hd : d ∈ device_mask) :
    d ∉ (CUDA.list_devices enabled device_mask num_devices props).map
        CUDA.CUDADevice.device_id ∧
    CUDA.available_slots true device_mask num_devices props =
      [("cuda.device",
        (((List.range num_devices).filter
            (fun idx => !(device_mask.contains (toString idx)))).length : ℚ))] := by
  constructor
  · intro hmem
    rw [List.mem_map] at hmem
    obtain ⟨dev, hdev, hid⟩ := hmem
    unfold CUDA.list_devices at hdev
    split at hdev
    · simp at hdev
    · rw [List.mem_map] at hdev
      obtain ⟨idx, hidx, hbuild⟩ := hdev
      rw [List.mem_filter] at hidx
      have hnc : ¬ (device_mask.contains (toString idx) = true) := by
        simpa using hidx.2
      apply hnc
      rw [List.elem_iff]
      have hds : toString idx = d := by
        rw [← hbuild] at hid
        exact hid
      rw [hds]
      exact hd
  · simp [CUDA.available_slots, CUDA.list_devices]

/-- C6 witness. -/
theorem masked_device_excluded_and_slots_count_unmasked_holds :
    ("1" : String) ∈ ["1"] ∧
    (("1" : String) ∉ (CUDA.list_devices true ["1"] 2
        (fun _ => ⟨"bus", 0, 0, "gpu", none, none⟩)).map CUDA.CUDADevice.device_id ∧
     CUDA.available_slots true ["1"] 2 (fun _ => ⟨"bus", 0, 0, "gpu", none, none⟩) =
      [("cuda.device",
        (((List.range 2).filter
            (fun idx => !((["1"] : List String).contains (toString idx)))).length : ℚ))]) :=
  ⟨by decide,
   masked_device_excluded_and_slots_count_unmasked true ["1"] 2
     (fun _ => ⟨"bus", 0, 0, "gpu", none, none⟩) "1" (by decide)⟩

/-- C9 (implicit): a disabled plugin lists no devices and reports zero
`cuda.device` capacity, exactly like an enabled plugin whose hardware
enumeration found zero devices. -/
theorem disabled_matches_zero_device_system (device_mask : List String)
    (num_devices : ℕ) (props : ℕ → CUDA.RawDeviceInfo) :
    CUDA.list_devices false device_mask num_devices props = [] ∧
    CUDA.available_slots false device_mask num_devices props = [("cuda.device", 0)] ∧
    CUDA.list_devices true device_mask 0 props = [] ∧
    CUDA.available_slots true device_mask 0 props = [("cuda.device", 0)] := by
  refine ⟨rfl, ?_, ?_, ?_⟩ <;> simp [CUDA.available_slots, CUDA.list_devices]

namespace CUDA

/-- When the active ids are exactly the members of a sorted duplicate-free
list, sorting the active-id set yields that list. -/
lemma sortedActiveDeviceIds_eq (device_alloc : DeviceAlloc) (l0 : List String)
    (hl0 : l0.Nodup) (hsorted : l0.Sorted (· ≤ ·))
    (h : ∀ d, d ∈ activeDeviceIds device_alloc ↔ d ∈ l0) :
    sortedActiveDeviceIds device_alloc = l0 := by
  have htF : (activeDeviceIds device_alloc).toFinset = l0.toFinset := by
    ext x
    simp only [List.mem_toFinset]
    exact h x
  have hperm : List.Perm (activeDeviceIds device_alloc) l0 :=
    List.perm_of_nodup_nodup_toFinset_eq (activeDeviceIds_nodup _) hl0 htF
  have hperm' : List.Perm (sortedActiveDeviceIds device_alloc) l0 :=
    (List.perm_insertionSort _ _).trans hperm
  exact List.eq_of_perm_of_sorted hperm' (List.sorted_insertionSort _ _) hsorted

end CUDA

/-- C4: in the V1 branch, with endpoint device files
`["/dev/nvidiactl", "/dev/nvidia0", "/dev/nvidia1"]` and an allocation whose
only active device id is `"1"`, the returned device list contains
`/dev/nvidiactl` (no device-index suffix, always included) and `/dev/nvidia1`
but not `/dev/nvidia0`. -/
theorem v1_keeps_control_and_active_device_files (minor patch : ℕ)
    (vols : List String) (vol_driver : String) (alloc : CUDA.DeviceAlloc)
    (h : ∀ d, d ∈ CUDA.activeDeviceIds alloc ↔ d = "1") :
    ∃ args : CUDA.DockerArgs,
      CUDA.generate_docker_args true (1, minor, patch)
          ⟨vols, vol_driver, ["/dev/nvidiactl", "/dev/nvidia0", "/dev/nvidia1"]⟩ alloc =
        some args ∧
      "/dev/nvidiactl" ∈ args.devices.map CUDA.DeviceEntry.PathOnHost ∧
      "/dev/nvidia1" ∈ args.devices.map CUDA.DeviceEntry.PathOnHost ∧
      "/dev/nvidia0" ∉ args.devices.map CUDA.DeviceEntry.PathOnHost := by
  have hn_ctl : CUDA.nvidiaDevIndex "/dev/nvidiactl" = none := by decide
  have hn0 : CUDA.nvidiaDevIndex "/dev/nvidia0" = some "0" := by decide
  have hn1 : CUDA.nvidiaDevIndex "/dev/nvidia1" = some "1" := by decide
  have h0 : ("0" : String) ∉ CUDA.activeDeviceIds alloc := by
    intro hm
    have := (h "0").1 hm
    simp at this
  have h1 : ("1" : String) ∈ CUDA.activeDeviceIds alloc := (h "1").2 rfl
  have hfilter : CUDA.v1FilterDevices ["/dev/nvidiactl", "/dev/nvidia0", "/dev/nvidia1"]
      (CUDA.activeDeviceIds alloc) = ["/dev/nvidiactl", "/dev/nvidia1"] := by
    simp [CUDA.v1FilterDevices, List.filter, hn_ctl, hn0, hn1, h0, h1]
  refine ⟨{ binds := vols
            devices := [⟨"/dev/nvidiactl", "/dev/nvidiactl", "mrw"⟩,
                        ⟨"/dev/nvidia1", "/dev/nvidia1", "mrw"⟩]
            runtime := none
            env := [] }, ?_, by simp, by simp, by simp⟩
  simp [CUDA.generate_docker_args, hfilter]

/-- C4 witness: a concrete allocation activating only device `"1"`. -/
theorem v1_keeps_control_and_active_device_files_holds :
    ∃ args : CUDA.DockerArgs,
      CUDA.generate_docker_args true (1, 0, 3)
          ⟨["nvidia_driver_396.37:/usr/local/nvidia:ro"], "nvidia-docker",
            ["/dev/nvidiactl", "/dev/nvidia0", "/dev/nvidia1"]⟩
          [("cuda.device", [("1", (1 : ℚ))])] =
        some args ∧
      "/dev/nvidiactl" ∈ args.devices.map CUDA.DeviceEntry.PathOnHost ∧
      "/dev/nvidia1" ∈ args.devices.map CUDA.DeviceEntry.PathOnHost ∧
      "/dev/nvidia0" ∉ args.devices.map CUDA.DeviceEntry.PathOnHost := by
  apply v1_keeps_control_and_active_device_files
  intro d
  rw [show CUDA.activeDeviceIds [("cuda.device", [("1", (1 : ℚ))])] = ["1"] from by decide]
  simp

/-- C5: in the V2 branch, when the active device ids are exactly `{"0", "2"}`,
the output is the runtime-name override together with the single environment
entry `NVIDIA_VISIBLE_DEVICES=0,2`. -/
theorem v2_env_is_sorted_comma_joined (minor patch : ℕ)
    (params : CUDA.NvidiaParams) (alloc : CUDA.DeviceAlloc)
    (h : ∀ d, d ∈ CUDA.activeDeviceIds alloc ↔ (d = "0" ∨ d = "2")) :
    CUDA.generate_docker_args true (2, minor, patch) params alloc =
      some { binds := [], devices := [], runtime := some "nvidia",
             env := ["NVIDIA_VISIBLE_DEVICES=0,2"] } := by
  have hs : CUDA.sortedActiveDeviceIds alloc = ["0", "2"] := by
    apply CUDA.sortedActiveDeviceIds_eq
    · decide
    · rw [List.sorted_cons]
      refine ⟨?_, ?_⟩
      · intro b hb
        rw [List.mem_singleton] at hb
        subst hb
        rw [String.le_iff_toList_le]
        decide
      · simp [List.sorted_cons]
    · intro d
      rw [h d]
      simp
  have henv : "NVIDIA_VISIBLE_DEVICES=" ++ String.intercalate "," ["0", "2"] =
      "NVIDIA_VISIBLE_DEVICES=0,2" := rfl
  simp [CUDA.generate_docker_args, hs, henv]

/-- C5 witness: a concrete allocation activating exactly devices `"0"` and
`"2"`. -/
theorem v2_env_is_sorted_comma_joined_holds :
    CUDA.generate_docker_args true (2, 0, 3) ⟨[], "nvidia-docker", []⟩
        [("cuda.device", [("2", (1 : ℚ)), ("0", (1 : ℚ)), ("1", (0 : ℚ))])] =
      some { binds := [], devices := [], runtime := some "nvidia",
             env := ["NVIDIA_VISIBLE_DEVICES=0,2"] } := by
  apply v2_env_is_sorted_comma_joined
  intro d
  rw [show CUDA.activeDeviceIds
        [("cuda.device", [("2", (1 : ℚ)), ("0", (1 : ℚ)), ("1", (0 : ℚ))])] =
      ["2", "0"] from by decide]
  simp [or_comm]

/-- C10 (implicit): in the V2 branch the active device ids are ordered by
lexicographic string comparison, not numerically: whenever both `"2"` and
`"10"` are active, the environment value lists `"10"` before `"2"`. -/
theorem v2_env_orders_ids_lexicographically (minor patch : ℕ)
    (params : CUDA.NvidiaParams) (alloc : CUDA.DeviceAlloc)
    (h2 : "2" ∈ CUDA.activeDeviceIds alloc)
    (h10 : "10" ∈ CUDA.activeDeviceIds alloc) :
    CUDA.generate_docker_args true (2, minor, patch) params alloc =
      some { binds := [], devices := [], runtime := some "nvidia",
             env := ["NVIDIA_VISIBLE_DEVICES=" ++
               String.intercalate "," (CUDA.sortedActiveDeviceIds alloc)] } ∧
    (CUDA.sortedActiveDeviceIds alloc).indexOf "10" <
      (CUDA.sortedActiveDeviceIds alloc).indexOf "2" := by
  constructor
  · simp [CUDA.generate_docker_args]
  · have hnd : (CUDA.sortedActiveDeviceIds alloc).Nodup :=
      (List.perm_insertionSort _ _).symm.nodup (CUDA.activeDeviceIds_nodup alloc)
    have hsorted : (CUDA.sortedActiveDeviceIds alloc).Sorted (· < ·) :=
      (List.sorted_insertionSort _ _).lt_of_le hnd
    have h10' : "10" ∈ CUDA.sortedActiveDeviceIds alloc := by
      simp only [CUDA.sortedActiveDeviceIds, List.mem_insertionSort]
      exact h10
    have h2' : "2" ∈ CUDA.sortedActiveDeviceIds alloc := by
      simp only [CUDA.sortedActiveDeviceIds, List.mem_insertionSort]
      exact h2
    have hlt : ("10" : String) < "2" := by
      rw [String.lt_iff_toList_lt]
      decide
    exact CUDA.indexOf_lt_of_pairwise_lt hsorted h10' h2' hlt

/-- C10 witness: a concrete allocation activating devices `"2"` and `"10"`. -/
theorem v2_env_orders_ids_lexicographically_holds :
    CUDA.generate_docker_args true (2, 0, 3) ⟨[], "nvidia-docker", []⟩
        [("cuda.device", [("2", (1 : ℚ)), ("10", (1 : ℚ))])] =
      some { binds := [], devices := [], runtime := some "nvidia",
             env := ["NVIDIA_VISIBLE_DEVICES=" ++ String.intercalate ","
               (CUDA.sortedActiveDeviceIds
                 [("cuda.device", [("2", (1 : ℚ)), ("10", (1 : ℚ))])])] } ∧
    (CUDA.sortedActiveDeviceIds
        [("cuda.device", [("2", (1 : ℚ)), ("10", (1 : ℚ))])]).indexOf "10" <
      (CUDA.sortedActiveDeviceIds
        [("cuda.device", [("2", (1 : ℚ)), ("10", (1 : ℚ))])]).indexOf "2" :=
  v2_env_orders_ids_lexicographically 0 3 ⟨[], "nvidia-docker", []⟩
    [("cuda.device", [("2", (1 : ℚ)), ("10", (1 : ℚ))])] (by decide) (by decide)

/-- C8: when the statistics driver is unavailable (the device-count query
raises), `gather_node_measures` still returns both records, with zero-valued
per-node aggregates and empty per-device maps. -/
theorem gather_node_measures_driver_unavailable (device_mask : List String)
    (driver : CUDA.NvmlDriver) (e : Unit)
    (h : driver.get_device_count = Except.error e) :
    CUDA.gather_node_measures true device_mask driver =
      [ { metric_key := "cuda_mem", unit_hint := "bytes",
          stats_filter := ["max"],
          per_node := ⟨0, 0⟩, per_device := [] },
        { metric_key := "cuda_util", unit_hint := "percent",
          stats_filter := ["avg", "max"],
          per_node := ⟨0, 0⟩, per_device := [] } ] := by
  simp [CUDA.gather_node_measures, CUDA.gatherState, h, CUDA.initGatherState]

/-- C8 witness: a concrete driver whose every call raises. -/
theorem gather_node_measures_driver_unavailable_holds :
    CUDA.gather_node_measures true []
        { get_device_count := Except.error ()
          get_device_stats := fun _ => Except.error () } =
      [ { metric_key := "cuda_mem", unit_hint := "bytes",
          stats_filter := ["max"],
          per_node := ⟨0, 0⟩, per_device := [] },
        { metric_key := "cuda_util", unit_hint := "percent",
          stats_filter := ["avg", "max"],
          per_node := ⟨0, 0⟩, per_device := [] } ] :=
  gather_node_measures_driver_unavailable []
    { get_device_count := Except.error ()
      get_device_stats := fun _ => Except.error () } () rfl

namespace CUDA

lemma dictUpdate_idem (m : String → Option ℚ) (entries : List (String × ℚ)) :
    dictUpdate (dictUpdate m entries) entries = dictUpdate m entries := by
  funext k
  simp only [dictUpdate]
  cases h : entries.lookup k <;> simp [h]

lemma apply_allocation_idem (ledger : Ledger) (slot : String)
    (entries : List (String × ℚ)) :
    apply_allocation (apply_allocation ledger slot entries) slot entries =
      apply_allocation ledger slot entries := by
  funext s
  simp only [apply_allocation]
  by_cases hs : s = slot
  · simp [hs, dictUpdate_idem]
  · simp [hs]

/-- A one-device inventory used to exhibit restoration behaviour: only device
id `"0"` exists. -/
def demoProps : ℕ → RawDeviceInfo :=
  fun _ => ⟨"0000:00:1e.0", 1024, 4, "GPU", none, none⟩

/-- A resource spec recorded for a container that was granted device `"99"`. -/
def demoSpec99 : ResourceSpec :=
  ⟨fun fam slot =>
    if fam = "cuda" ∧ slot = "cuda.device" then [("99", 1)] else []⟩

/-- The empty allocation ledger. -/
def emptyLedger : Ledger := fun _ _ => none

end CUDA

/-- C2: restoring the same resource spec twice leaves the allocation map in
exactly the state of restoring it once, in both the structured
(`apply_allocation`) and the legacy (direct dict update) branch, for every
spec and every ledger state. -/
theorem restore_from_container_idempotent (enabled hasApply : Bool)
    (spec : Option CUDA.ResourceSpec) (ledger : CUDA.Ledger) :
    CUDA.restore_from_container enabled spec hasApply
        (CUDA.restore_from_container enabled spec hasApply ledger) =
      CUDA.restore_from_container enabled spec hasApply ledger := by
  cases enabled
  · rfl
  · cases spec with
    | none => rfl
    | some rs =>
      cases hasApply
      · exact CUDA.apply_allocation_idem ledger "cuda.device"
          (rs.allocations "cuda" "cuda.device")
      · exact CUDA.apply_allocation_idem ledger "cuda.device"
          (rs.allocations "cuda" "cuda.device")

/-- C3 counterexample: device `"99"` is absent from the current inventory
(which lists only `"0"`), yet restoring a spec that mentions `"99"` writes
the entry into the ledger instead of skipping it. -/
theorem restore_does_not_skip_absent_device :
    "99" ∉ (CUDA.list_devices true [] 1 CUDA.demoProps).map
        CUDA.CUDADevice.device_id ∧
    CUDA.restore_from_container true (some CUDA.demoSpec99) false CUDA.emptyLedger
        "cuda.device" "99" = some 1 ∧
    CUDA.emptyLedger "cuda.device" "99" = none :=
  ⟨by decide, by decide, rfl⟩

/-- C3 amended: restoration applies every device entry of the restored spec
unconditionally — `restore_from_container` never consults the device
inventory, so entries of absent devices are inserted rather than skipped —
and it completes without aborting: the targeted slot receives every spec
entry and all other slots are left unchanged. -/
theorem restore_applies_every_spec_entry (rs : CUDA.ResourceSpec)
    (ledger : CUDA.Ledger) (d : String) (v : ℚ) (slot d' : String)
    (h : (rs.allocations "cuda" "cuda.device").lookup d = some v)
    (hslot : slot ≠ "cuda.device") :
    CUDA.restore_from_container true (some rs) false ledger "cuda.device" d =
      some v ∧
    CUDA.restore_from_container true (some rs) false ledger slot d' =
      ledger slot d' := by
  constructor
  · simp [CUDA.restore_from_container, CUDA.legacyUpdate, CUDA.dictUpdate, h]
  · simp [CUDA.restore_from_container, CUDA.legacyUpdate, hslot]

/-- C3 amended witness: the spec entry for the absent device `"99"` lands in
the ledger and an unrelated slot is untouched. -/
theorem restore_applies_every_spec_entry_holds :
    CUDA.restore_from_container true (some CUDA.demoSpec99) false CUDA.emptyLedger
        "cuda.device" "99" = some 1 ∧
    CUDA.restore_from_container true (some CUDA.demoSpec99) false CUDA.emptyLedger
        "cuda.shares" "99" = CUDA.emptyLedger "cuda.shares" "99" :=
  restore_applies_every_spec_entry CUDA.demoSpec99 CUDA.emptyLedger "99" 1
    "cuda.shares" "99" (by decide) (by decide)
